import Mathlib

/-!
# Verification of the jarvis cache / intent / temporal-parsing / transcoding core

Shallow embedding of the core components of the `jarvis` repository:

* `src/src/jarvis/cache.py` — TTL cache with stale fallback and the sliding
  7-day events window (`Cache.get`, `Cache.get_events_cached`,
  `Cache._filter_events_by_date_range`);
* `src/intent.py` — hybrid regex + LLM intent detection
  (`IntentDetector.detect`, `_combine_results`, `_llm_classify`);
* `src/src/jarvis/time_stone.py` — temporal expression parsing
  (`TemporalParser.parse`, the `TimeRange` factories);
* `src/src/jarvis/semantic_transcoder.py` — deterministic data-to-text
  transcoding (`transcode_events`, `transcode_todos`, `transcode_all`).

Modelling conventions:

* Python `datetime.date` values are represented by their proleptic Gregorian
  ordinal (`date.toordinal()`), an integer; `timedelta(days=n)` arithmetic is
  integer addition, and `d.weekday()` is `(d - 1) % 7` (Monday = 0).
* Python `datetime.now()` timestamps are integer seconds.
* The ambient clock (`date.today()` / `datetime.now()`) is passed explicitly
  as a parameter (`today` / `now`).
* An injected async fetcher is modelled by the outcome of awaiting it:
  either a value or a raised exception (`FetchResult`).
* Python dicts keyed by strings/enums are association lists in insertion
  order; dict assignment replaces in place or appends.
* The SQLite persistence mirror of the cache is not modelled: every claim
  under consideration is about the in-memory map and the returned values.
-/

/-! ## Python dates as proleptic Gregorian ordinals -/

/-- `date.weekday()` of a Python date given by its ordinal: Monday = 0 …
Sunday = 6.  Ordinal 1 (0001-01-01) was a Monday.  (Dates are plain `Int`
ordinals throughout; a dedicated type synonym would hide the arithmetic from
`omega`.) -/
def Int.weekday (d : Int) : Int := (d - 1) % 7

/-- Leap-year test of the proleptic Gregorian calendar. -/
def isLeapYear (y : Nat) : Bool := (y % 4 == 0 && y % 100 != 0) || y % 400 == 0

/-- Days in the months before month `m` (1-based) of year `y`. -/
def daysBeforeMonth (y m : Nat) : Nat :=
  [0, 31, 59, 90, 120, 151, 181, 212, 243, 273, 304, 334].getD (m - 1) 0 +
    (if 2 < m && isLeapYear y then 1 else 0)

/-- `date(y, m, d).toordinal()` for `y ≥ 1` (the classic toordinal formula). -/
def fromYmd (y m d : Nat) : Int :=
  (365 * (y - 1) + (y - 1) / 4 - (y - 1) / 100 + (y - 1) / 400
    + daysBeforeMonth y m + d : Nat)

/-- Inverse of `fromYmd`: split an ordinal into `(year, month, day)`
(civil-from-days, shifted so that ordinal 1 is 0001-01-01). -/
def ordinalToYmd (o : Int) : Nat × Nat × Nat :=
  let z : Int := o + 305
  let era := z.fdiv 146097
  let doe := z - era * 146097
  let yoe := (doe - doe.fdiv 1460 + doe.fdiv 36524 - doe.fdiv 146096).fdiv 365
  let y := yoe + era * 400
  let doy := doe - (365 * yoe + yoe.fdiv 4 - yoe.fdiv 100)
  let mp := (5 * doy + 2).fdiv 153
  let d := doy - (153 * mp + 2).fdiv 5 + 1
  let m := if mp < 10 then mp + 3 else mp - 9
  ((if m ≤ 2 then y + 1 else y).toNat, m.toNat, d.toNat)

/-- Zero-pad a numeral to two digits. -/
def pad2 (n : Nat) : String := if n < 10 then "0" ++ toString n else toString n

/-- Zero-pad a numeral to four digits. -/
def pad4 (n : Nat) : String :=
  if n < 10 then "000" ++ toString n
  else if n < 100 then "00" ++ toString n
  else if n < 1000 then "0" ++ toString n
  else toString n

/-- `date.isoformat()`: `YYYY-MM-DD`. -/
def Int.toIso (o : Int) : String :=
  let ymd := ordinalToYmd o
  pad4 ymd.1 ++ "-" ++ pad2 ymd.2.1 ++ "-" ++ pad2 ymd.2.2

example : fromYmd 1 1 1 = 1 := by decide
example : Int.weekday (fromYmd 2024 12 11) = 2 := by decide
example : ordinalToYmd (fromYmd 2024 12 11) = (2024, 12, 11) := by decide
example : Int.toIso (fromYmd 2024 12 11) = "2024-12-11" := by decide

/-! ## cache.py: `CacheEntry` and `Cache` -/

/-- `CacheEntry` from cache.py: cached payload with expiry bookkeeping. -/
structure CacheEntry (α : Type) where
  data : α
  expiresAt : Int
  fetchedAt : Int
deriving Repr, DecidableEq

/-- `CacheEntry.is_expired`: `datetime.now() >= self.expires_at`. -/
def CacheEntry.isExpired (e : CacheEntry α) (now : Int) : Bool :=
  decide (e.expiresAt ≤ now)

/-- `Cache.TTL_CONFIG`: per-key default TTLs in seconds. -/
def TTL_CONFIG : List (String × Nat) := [("weather", 1800), ("events", 300), ("todos", 300)]

/-- The in-memory state of a `Cache` instance: `_memory_cache` plus the
constructor-supplied `ttl_config` overrides. -/
structure Cache (α : Type) where
  memory : List (String × CacheEntry α) := []
  ttlOverride : List (String × Nat) := []
deriving Repr, DecidableEq

/-- `dict.get`: first binding of `k` in an association list. -/
def alookup [BEq κ] (m : List (κ × β)) (k : κ) : Option β :=
  (m.find? (fun p => p.1 == k)).map Prod.snd

/-- Python dict assignment `m[k] = v`: replace the existing binding in place,
or append a new one. -/
def dictInsert [BEq κ] : List (κ × β) → κ → β → List (κ × β)
  | [], k, v => [(k, v)]
  | (k', v') :: rest, k, v =>
    if k' == k then (k', v) :: rest else (k', v') :: dictInsert rest k v

/-- `Cache._get_ttl`: `self._ttl = {**TTL_CONFIG, **(ttl_config or {})}` then
`self._ttl.get(key, 300)`. -/
def Cache.getTtl (c : Cache α) (key : String) : Nat :=
  match alookup c.ttlOverride key with
  | some t => t
  | none =>
    match alookup TTL_CONFIG key with
    | some t => t
    | none => 300

/-- Outcome of awaiting an injected fetcher: a value, or a raised exception. -/
inductive FetchResult (α : Type) where
  | ok (data : α)
  | err
deriving Repr, DecidableEq

/-- Result of one `Cache.get` call: the returned value (`none` models the
Python `None` sentinel), the cache state afterwards, and whether the fetcher
was invoked. -/
structure GetResult (α : Type) where
  data : Option α
  cache : Cache α
  fetched : Bool
deriving Repr, DecidableEq

/-- The fetch path of `Cache.get` (the body of its `try`/`except`): on success
store a fresh entry expiring at `now + ttl(key)`; on failure fall back to the
stale `entry` if one exists, else return `None`. -/
def Cache.getFetch (c : Cache α) (key : String) (entry : Option (CacheEntry α))
    (fetch : FetchResult α) (now : Int) : GetResult α :=
  match fetch with
  | .ok d =>
    let newEntry : CacheEntry α := ⟨d, now + (c.getTtl key : Int), now⟩
    ⟨some d, { c with memory := dictInsert c.memory key newEntry }, true⟩
  | .err =>
    match entry with
    | some e => ⟨some e.data, c, true⟩
    | none => ⟨none, c, true⟩

/-- `Cache.get(key, fetcher, force_refresh)`: return fresh cached data when
available, otherwise run the fetcher (`getFetch`). -/
def Cache.get (c : Cache α) (key : String) (fetch : FetchResult α) (now : Int)
    (forceRefresh : Bool) : GetResult α :=
  match alookup c.memory key with
  | some e =>
    if !forceRefresh && !(e.isExpired now) then ⟨some e.data, c, false⟩
    else c.getFetch key (some e) fetch now
  | none => c.getFetch key none fetch now

/-- `alookup` after a `dictInsert` of the same key finds the new value. -/
theorem alookup_dictInsert_self (m : List (String × β)) (k : String) (v : β) :
    alookup (dictInsert m k v) k = some v := by
  induction m with
  | nil => simp [dictInsert, alookup]
  | cons p rest ih =>
    obtain ⟨k', v'⟩ := p
    by_cases hk : k' == k
    · simp [dictInsert, hk, alookup, List.find?, hk]
    · simp only [dictInsert, hk, Bool.false_eq_true, if_false]
      simpa [alookup, List.find?, hk] using ih

/-! ## cache.py: sliding events window -/

/-- Python string `<=` (code-point lexicographic) on exploded strings. -/
def charListLe : List Char → List Char → Bool
  | [], _ => true
  | _ :: _, [] => false
  | a :: as, b :: bs =>
    if a.toNat < b.toNat then true
    else if b.toNat < a.toNat then false
    else charListLe as bs

/-- Python string `<=`. -/
def strLe (a b : String) : Bool := charListLe a.toList b.toList

/-- A calendar event dictionary, restricted to the keys the core reads.
A field is `none` when the key is absent. -/
structure Event where
  date : Option String := none
  start : Option String := none
  «end» : Option String := none
  summary : Option String := none
  location : Option String := none
  calendar : Option String := none
  calendarType : Option String := none
deriving Repr, DecidableEq

/-- The fetcher's response for an events query.  `result` is `none` when the
response is falsy or has no truthy `"result"` key; otherwise it is the
JSON-decoded event list (`json.loads(response["result"])`, modelled as
already-structured data). -/
structure EvResponse where
  result : Option (List Event) := none
deriving Repr, DecidableEq

/-- The event date used by `Cache._filter_events_by_date_range`:
`event.get("date")`, falling back (when falsy) to the date portion of
`event.get("start", "")`. -/
def pyEventDate (event : Event) : String :=
  let fromStart :=
    let s := event.start.getD ""
    if s.toList.contains 'T' then String.mk (s.toList.takeWhile fun c => c ≠ 'T') else s
  match event.date with
  | some s => if s = "" then fromStart else s
  | none => fromStart

/-- `Cache._filter_events_by_date_range`: keep events whose derived date is
truthy and lies (as an ISO string) inclusively between the bounds. -/
def filterEventsByDateRange (events : List Event) (startDate endDate : Int) :
    List Event :=
  let startStr := startDate.toIso
  let endStr := endDate.toIso
  events.filter fun event =>
    let eventDate := pyEventDate event
    !(eventDate = "") && strLe startStr eventDate && strLe eventDate endStr

/-- `Cache.EVENTS_WINDOW_DAYS`. -/
def EVENTS_WINDOW_DAYS : Int := 7

/-- `Cache._get_or_refresh_events_window`: run `Cache.get` on the dedicated
`"events:window"` key with a fetcher closed over `[today, today+6]`; decode
the resulting response (or return `[]`).  Returns the window event list, the
cache state afterwards, and whether the fetcher was invoked. -/
def Cache.getOrRefreshEventsWindow (c : Cache EvResponse)
    (fetcher : String → String → FetchResult EvResponse) (today : Int)
    (now : Int) (forceRefresh : Bool) : List Event × Cache EvResponse × Bool :=
  let windowEnd := today + (EVENTS_WINDOW_DAYS - 1)
  let g := c.get "events:window" (fetcher today.toIso windowEnd.toIso) now forceRefresh
  (match g.data with
   | some r => r.result.getD []
   | none => [], g.cache, g.fetched)

/-- Result of `Cache.get_events_cached`: the returned events, the cache state
afterwards, and the arguments of each fetcher invocation, in order. -/
structure EventsResult where
  events : List Event
  cache : Cache EvResponse
  calls : List (String × String)
deriving Repr, DecidableEq

/-- `Cache.get_events_cached(start_date, end_date, fetcher, force_refresh)`:
serve in-window queries from the shared window entry, filtered to the
requested sub-range; serve out-of-window queries by calling the fetcher
directly with the literal bounds, uncached, returning `[]` on any
exception. -/
def Cache.getEventsCached (c : Cache EvResponse) (startDate endDate : Int)
    (fetcher : String → String → FetchResult EvResponse) (today : Int)
    (now : Int) (forceRefresh : Bool) : EventsResult :=
  let windowEnd := today + (EVENTS_WINDOW_DAYS - 1)
  if today ≤ startDate ∧ endDate ≤ windowEnd then
    let w := c.getOrRefreshEventsWindow fetcher today now forceRefresh
    { events := filterEventsByDateRange w.1 startDate endDate
      cache := w.2.1
      calls := if w.2.2 then [(today.toIso, windowEnd.toIso)] else [] }
  else
    match fetcher startDate.toIso endDate.toIso with
    | .ok r =>
      { events := r.result.getD []
        cache := c
        calls := [(startDate.toIso, endDate.toIso)] }
    | .err =>
      { events := []
        cache := c
        calls := [(startDate.toIso, endDate.toIso)] }

/-! ## Claims C1 and C2: `Cache.get` TTL and stale-fallback behaviour -/

/-- C1: if `Cache.get` must fetch (entry missing, expired, or `force_refresh`)
and the fetcher raises, the exception is not propagated: the call returns the
previous entry's data (even if expired) or `None` when there is none, and the
cache state — in particular the stored entry for the key — is unchanged. -/
theorem cache_get_stale_fallback {α : Type} (c : Cache α) (key : String)
    (now : Int) (forceRefresh : Bool)
    (_hmust : (forceRefresh || (alookup c.memory key).all fun e => e.isExpired now) = true) :
    (c.get key .err now forceRefresh).data = (alookup c.memory key).map CacheEntry.data ∧
    (c.get key .err now forceRefresh).cache = c := by
  cases h : alookup c.memory key with
  | none => simp [Cache.get, h, Cache.getFetch]
  | some e =>
    simp only [Cache.get, h]
    split <;> simp [Cache.getFetch]

/-- Concrete instance of C1: the key holds an expired entry (`42`, expired at
time 100), the fetcher raises, and `get` at time 100 returns `42` leaving the
cache untouched. -/
theorem cache_get_stale_fallback_witness :
    ((false || (alookup (Cache.mk [("k", (⟨42, 100, 50⟩ : CacheEntry Nat))] []).memory "k").all
        fun e => e.isExpired 100) = true) ∧
    ((Cache.get ⟨[("k", ⟨42, 100, 50⟩)], []⟩ "k" .err 100 false).data =
        (alookup (Cache.mk [("k", (⟨42, 100, 50⟩ : CacheEntry Nat))] []).memory "k").map
          CacheEntry.data ∧
      (Cache.get ⟨[("k", ⟨42, 100, 50⟩)], []⟩ "k" .err 100 false).cache =
        ⟨[("k", ⟨42, 100, 50⟩)], []⟩) :=
  ⟨by decide, cache_get_stale_fallback ⟨[("k", ⟨42, 100, 50⟩)], []⟩ "k" 100 false (by decide)⟩

/-- The cache used in the C2 counterexample: a pre-existing `"weather"` entry
(data `5`) that expires at time 1001. -/
def c2Cache : Cache Nat := ⟨[("weather", ⟨5, 1001, 900⟩)], []⟩

/-- C2 fails as stated: with `ttl("weather") = 1800`, a successful
`get` at time 1000 (a cache hit on the pre-existing entry) followed by a
second `get` at time 1002 — well within 1800 seconds — makes the second call
invoke its fetcher, because the pre-existing entry expired at 1001.  The
second call returns the freshly fetched `7`, not the cached `5`. -/
theorem cache_second_get_counterexample :
    (1002 : Int) < 1000 + (c2Cache.getTtl "weather" : Int) ∧
    (c2Cache.get "weather" (.ok 6) 1000 false).data = some 5 ∧
    (c2Cache.get "weather" (.ok 6) 1000 false).fetched = false ∧
    ((c2Cache.get "weather" (.ok 6) 1000 false).cache.get "weather" (.ok 7) 1002 false).fetched
      = true ∧
    ((c2Cache.get "weather" (.ok 6) 1000 false).cache.get "weather" (.ok 7) 1002 false).data
      = some 7 := by
  decide

/-- C2 (amended): two `get` calls on the same key within `ttl(key)` seconds,
the first one's fetch succeeding, invoke a fetcher at most once in total;
moreover when the first call itself performed the fetch, the second call
performs no fetch and returns the data stored by the first, and whenever the
second call performs no fetch it returns the same data as the first call. -/
theorem cache_get_ttl_single_fetch {α : Type} (c : Cache α) (key : String) (d : α)
    (fetch2 : FetchResult α) (t0 t1 : Int) (_h0 : t0 ≤ t1)
    (h1 : t1 < t0 + (c.getTtl key : Int)) :
    ((if (c.get key (.ok d) t0 false).fetched then 1 else 0) +
        (if ((c.get key (.ok d) t0 false).cache.get key fetch2 t1 false).fetched then 1 else 0)
      ≤ 1) ∧
    ((c.get key (.ok d) t0 false).fetched = true →
      ((c.get key (.ok d) t0 false).cache.get key fetch2 t1 false).fetched = false ∧
      ((c.get key (.ok d) t0 false).cache.get key fetch2 t1 false).data = some d) ∧
    (((c.get key (.ok d) t0 false).cache.get key fetch2 t1 false).fetched = false →
      ((c.get key (.ok d) t0 false).cache.get key fetch2 t1 false).data
        = (c.get key (.ok d) t0 false).data) := by
  have hfresh : (CacheEntry.isExpired ⟨d, t0 + (c.getTtl key : Int), t0⟩ t1) = false := by
    simp only [CacheEntry.isExpired, decide_eq_false_iff_not, not_le]
    omega
  cases h : alookup c.memory key with
  | none =>
    have h2 : alookup (dictInsert c.memory key
        (⟨d, t0 + (c.getTtl key : Int), t0⟩ : CacheEntry α)) key = some _ :=
      alookup_dictInsert_self ..
    simp [Cache.get, h, Cache.getFetch, h2, hfresh]
  | some e =>
    by_cases hexp : e.isExpired t0
    · have h2 : alookup (dictInsert c.memory key
          (⟨d, t0 + (c.getTtl key : Int), t0⟩ : CacheEntry α)) key = some _ :=
        alookup_dictInsert_self ..
      simp [Cache.get, h, Cache.getFetch, h2, hexp, hfresh]
    · by_cases hexp1 : e.isExpired t1
      · cases fetch2 <;> simp [Cache.get, h, Cache.getFetch, hexp, hexp1]
      · simp [Cache.get, h, hexp, hexp1]

/-- The empty cache used in the C2 witness. -/
def c2wCache : Cache Nat := ⟨[], []⟩

/-- Concrete instance of the amended C2: on an empty cache, a first `get` at
time 0 fetches `3`; the second `get` at time 10 (within the 300-second default
TTL) performs no fetch and returns `3`. -/
theorem cache_get_ttl_single_fetch_witness :
    ((0 : Int) ≤ 10 ∧ (10 : Int) < 0 + (c2wCache.getTtl "k" : Int)) ∧
    (((if (c2wCache.get "k" (.ok 3) 0 false).fetched then 1 else 0) +
        (if ((c2wCache.get "k" (.ok 3) 0 false).cache.get "k" (.ok 9) 10 false).fetched
          then 1 else 0) ≤ 1) ∧
      ((c2wCache.get "k" (.ok 3) 0 false).fetched = true →
        ((c2wCache.get "k" (.ok 3) 0 false).cache.get "k" (.ok 9) 10 false).fetched = false ∧
        ((c2wCache.get "k" (.ok 3) 0 false).cache.get "k" (.ok 9) 10 false).data = some 3) ∧
      (((c2wCache.get "k" (.ok 3) 0 false).cache.get "k" (.ok 9) 10 false).fetched = false →
        ((c2wCache.get "k" (.ok 3) 0 false).cache.get "k" (.ok 9) 10 false).data
          = (c2wCache.get "k" (.ok 3) 0 false).data)) :=
  ⟨⟨by decide, by decide⟩,
    cache_get_ttl_single_fetch c2wCache "k" 3 (.ok 9) 0 10 (by decide) (by decide)⟩

/-! ## Claims C7 and C10: the events window -/

/-- C7: a requested range not fully contained in `[today, today + 6]` bypasses
the window cache: the cache state (in particular the `"events:window"` entry)
is unchanged, the fetcher is called exactly once with the literal ISO bounds
of the request, and its decoded result is returned unfiltered (with `[]` on a
missing result or a raised exception). -/
theorem events_out_of_window_bypass (c : Cache EvResponse) (startDate endDate : Int)
    (fetcher : String → String → FetchResult EvResponse) (today : Int) (now : Int)
    (forceRefresh : Bool) (_hrange : startDate ≤ endDate)
    (hout : ¬(today ≤ startDate ∧ endDate ≤ today + 6)) :
    (c.getEventsCached startDate endDate fetcher today now forceRefresh).cache = c ∧
    (c.getEventsCached startDate endDate fetcher today now forceRefresh).calls
      = [(startDate.toIso, endDate.toIso)] ∧
    (c.getEventsCached startDate endDate fetcher today now forceRefresh).events
      = (match fetcher startDate.toIso endDate.toIso with
         | .ok r => r.result.getD []
         | .err => []) := by
  have hout' : ¬(today ≤ startDate ∧ endDate ≤ today + (EVENTS_WINDOW_DAYS - 1)) := by
    simpa [EVENTS_WINDOW_DAYS] using hout
  unfold Cache.getEventsCached
  simp only [hout', if_false]
  cases fetcher startDate.toIso endDate.toIso <;> simp

/-- Concrete instance of C7: a historical query (`end_date` before `today`)
bypasses the window cache. -/
theorem events_out_of_window_bypass_witness :
    ((1 : Int) ≤ 2 ∧ ¬((10 : Int) ≤ 1 ∧ (2 : Int) ≤ 10 + 6)) ∧
    ((Cache.getEventsCached ⟨[], []⟩ 1 2 (fun _ _ => .err) 10 0 false).cache = ⟨[], []⟩ ∧
      (Cache.getEventsCached ⟨[], []⟩ 1 2 (fun _ _ => .err) 10 0 false).calls
        = [(Int.toIso 1, Int.toIso 2)] ∧
      (Cache.getEventsCached ⟨[], []⟩ 1 2 (fun _ _ => .err) 10 0 false).events
        = (match (fun _ _ => FetchResult.err (α := EvResponse)) (Int.toIso 1) (Int.toIso 2)
             with
           | .ok r => r.result.getD []
           | .err => [])) :=
  ⟨⟨by decide, by decide⟩,
    events_out_of_window_bypass ⟨[], []⟩ 1 2 (fun _ _ => .err) 10 0 false (by decide)
      (by decide)⟩

/-- C10: an in-window query returns exactly the events of the (possibly
refreshed) window whose derived date — the `date` field, or else the date
portion of the `start` field — is non-empty and lies, as an ISO string,
inclusively between the requested bounds; an event whose derived date is
empty (no usable `date` or `start`) is always dropped. -/
theorem events_in_window_filter (c : Cache EvResponse) (startDate endDate : Int)
    (fetcher : String → String → FetchResult EvResponse) (today : Int) (now : Int)
    (forceRefresh : Bool) (hin : today ≤ startDate ∧ endDate ≤ today + 6) (e : Event) :
    (e ∈ (c.getEventsCached startDate endDate fetcher today now forceRefresh).events ↔
      e ∈ (c.getOrRefreshEventsWindow fetcher today now forceRefresh).1 ∧
        pyEventDate e ≠ "" ∧ strLe startDate.toIso (pyEventDate e) = true ∧
        strLe (pyEventDate e) endDate.toIso = true) ∧
    (pyEventDate e = "" →
      e ∉ (c.getEventsCached startDate endDate fetcher today now forceRefresh).events) := by
  have hin' : today ≤ startDate ∧ endDate ≤ today + (EVENTS_WINDOW_DAYS - 1) := by
    simpa [EVENTS_WINDOW_DAYS] using hin
  unfold Cache.getEventsCached
  simp only [hin', if_true, and_self]
  constructor
  · simp [filterEventsByDateRange, List.mem_filter, and_assoc]
  · intro hempty
    simp [filterEventsByDateRange, List.mem_filter, hempty]

/-! ## Word-boundary pattern matching

All regexes of intent.py and time_stone.py are case-insensitive alternations
of literal keywords wrapped in `\b … \b` (plus `\s+` separators and one `\d+`
capture).  They are embedded by an explicit scanner over the lower-cased
character list: a candidate position must be preceded by a non-word character
(every keyword starts with a word character), each alternative is tried in
order, and a successful alternative must be followed by a non-word character
or the end of input. -/

/-- Python regex `\w` for the ASCII inputs at hand. -/
def isWordChar (c : Char) : Bool := c.isAlphanum || c == '_'

/-- `\b` after a keyword ending in a word character. -/
def boundaryAfter : List Char → Bool
  | [] => true
  | c :: _ => !isWordChar c

/-- Match the literal characters `kw` at the head of `s`, returning the rest. -/
def stripKw : List Char → List Char → Option (List Char)
  | [], rest => some rest
  | _ :: _, [] => none
  | k :: ks, c :: cs => if k == c then stripKw ks cs else none

/-- Python regex `\s+`: at least one whitespace character, taken greedily. -/
def wsDrop1Plus : List Char → Option (List Char)
  | c :: cs => if c.isWhitespace then some (cs.dropWhile Char.isWhitespace) else none
  | [] => none

/-- Scan for the first position (with a word boundary before it) where `tryAt`
matches; `re.Pattern.search`. -/
def scanAux (tryAt : List Char → Option α) : Nat → Bool → List Char → Option α
  | 0, _, _ => none
  | _ + 1, _, [] => none
  | fuel + 1, prevWord, c :: cs =>
    if !prevWord then
      match tryAt (c :: cs) with
      | some r => some r
      | none => scanAux tryAt fuel (isWordChar c) cs
    else scanAux tryAt fuel (isWordChar c) cs

/-- `message.lower()`, as a character list. -/
def lowerChars (msg : String) : List Char := msg.toList.map Char.toLower

/-- `pattern.search(message)` with `re.IGNORECASE`, on the lower-cased text. -/
def reSearch (tryAt : List Char → Option α) (msg : String) : Option α :=
  let l := lowerChars msg
  scanAux tryAt (l.length + 1) false l

/-- Count non-overlapping matches left to right (`re.Pattern.findall`).
`tryAt` returns the rest of the input after a match; every match consumes at
least one character and ends in a word character. -/
def findallAux (tryAt : List Char → Option (List Char)) :
    Nat → Bool → List Char → Nat
  | 0, _, _ => 0
  | _ + 1, _, [] => 0
  | fuel + 1, prevWord, c :: cs =>
    if !prevWord then
      match tryAt (c :: cs) with
      | some rest => 1 + findallAux tryAt fuel true rest
      | none => findallAux tryAt fuel (isWordChar c) cs
    else findallAux tryAt fuel (isWordChar c) cs

/-- Try an alternation of literal keywords (in order) at this position; a
keyword must be followed by a word boundary.  Returns the rest of the input. -/
def tryKwsAt (kws : List String) (s : List Char) : Option (List Char) :=
  match kws with
  | [] => none
  | kw :: rest =>
    match stripKw kw.toList s with
    | some r => if boundaryAfter r then some r else tryKwsAt rest s
    | none => tryKwsAt rest s

/-- `len(pattern.findall(message))` for `\b(kw1|…|kwn)\b` with `IGNORECASE`. -/
def countKwMatches (kws : List String) (msg : String) : Nat :=
  let l := lowerChars msg
  findallAux (tryKwsAt kws) (l.length + 1) false l

/-- `pattern.search(message) is not None` for `\b(kw1|…|kwn)\b`. -/
def kwSearch (kws : List String) (msg : String) : Bool :=
  (reSearch (fun s => tryKwsAt kws s) msg).isSome

/-- Try `\bw1\s+w2\b` at this position. -/
def tryTwoWordAt (w1 w2 : List Char) (s : List Char) : Option (List Char) :=
  match stripKw w1 s with
  | none => none
  | some r1 =>
    match wsDrop1Plus r1 with
    | none => none
    | some r2 =>
      match stripKw w2 r2 with
      | none => none
      | some r3 => if boundaryAfter r3 then some r3 else none

/-- `re.search` for `\bw1\s+w2\b` (the `this week` / `next week` patterns). -/
def twoWordSearch (w1 w2 : String) (msg : String) : Bool :=
  (reSearch (tryTwoWordAt w1.toList w2.toList) msg).isSome

/-! ## time_stone.py: `TimeRange` and `TemporalParser` -/

/-- `TemporalPattern` from time_stone.py. -/
inductive TemporalPattern where
  | today
  | tomorrow
  | yesterday
  | thisWeek
  | nextWeek
  | nextNDays
  | specificWeekday
  | nonePattern
deriving Repr, DecidableEq

/-- `TimeRange` from time_stone.py: an inclusive date range with a label. -/
structure TimeRange where
  start : Int
  «end» : Int
  description : String
  pattern : TemporalPattern := .nonePattern
deriving Repr, DecidableEq

/-- `TimeRange.is_single_day`. -/
def TimeRange.isSingleDay (tr : TimeRange) : Bool := tr.start == tr.«end»

/-- `TimeRange.days`: `(end - start).days + 1`. -/
def TimeRange.days (tr : TimeRange) : Int := tr.«end» - tr.start + 1

/-- Factory `TimeRange.today()`; `d` is `date.today()`. -/
def TimeRange.today (d : Int) : TimeRange := ⟨d, d, "today", .today⟩

/-- Factory `TimeRange.tomorrow()`; `d` is `date.today()`. -/
def TimeRange.tomorrow (d : Int) : TimeRange := ⟨d + 1, d + 1, "tomorrow", .tomorrow⟩

/-- Factory `TimeRange.this_week()`; `d` is `date.today()`. -/
def TimeRange.thisWeek (d : Int) : TimeRange :=
  let monday := d - d.weekday
  ⟨monday, monday + 6, "this week", .thisWeek⟩

/-- Factory `TimeRange.next_week()`; `d` is `date.today()`. -/
def TimeRange.nextWeek (d : Int) : TimeRange :=
  let nextMonday := d + (7 - d.weekday)
  ⟨nextMonday, nextMonday + 6, "next week", .nextWeek⟩

/-- Factory `TimeRange.next_n_days(n)`; `d` is `date.today()`. -/
def TimeRange.nextNDays (d : Int) (n : Nat) : TimeRange :=
  ⟨d, d + (n : Int) - 1, "next " ++ toString n ++ " days", .nextNDays⟩

/-- `WEEKDAY_NAMES`. -/
def weekdayNames : List String :=
  ["monday", "tuesday", "wednesday", "thursday", "friday", "saturday", "sunday"]

/-- `int(match.group(1))` for the `\d+` capture. -/
def digitsToNat (ds : List Char) : Nat := ds.foldl (fun a c => 10 * a + (c.toNat - 48)) 0

/-- Try `\bnext\s+(\d+)\s+days?\b` at this position, returning the captured
number. -/
def tryNextNDaysAt (s : List Char) : Option Nat :=
  match stripKw ['n', 'e', 'x', 't'] s with
  | none => none
  | some r1 =>
    match wsDrop1Plus r1 with
    | none => none
    | some r2 =>
      let digits := r2.takeWhile Char.isDigit
      if digits.isEmpty then none
      else
        match wsDrop1Plus (r2.dropWhile Char.isDigit) with
        | none => none
        | some r4 =>
          match stripKw ['d', 'a', 'y'] r4 with
          | none => none
          | some r5 =>
            match r5 with
            | 's' :: r6 => if boundaryAfter r6 then some (digitsToNat digits) else none
            | _ => if boundaryAfter r5 then some (digitsToNat digits) else none

/-- `TEMPORAL_PATTERNS[NEXT_N_DAYS].search(message)`, with the captured `N`. -/
def nextNDaysSearch (msg : String) : Option Nat := reSearch tryNextNDaysAt msg

/-- Try each weekday name (alternation order of `WEEKDAY_PATTERN`) at this
position; the name must be followed by a word boundary. -/
def tryWeekdayNameAt : List String → List Char → Option String
  | [], _ => none
  | w :: rest, s =>
    match stripKw w.toList s with
    | some r => if boundaryAfter r then some w else tryWeekdayNameAt rest s
    | none => tryWeekdayNameAt rest s

/-- Try `\b(?:next\s+)?(monday|…|sunday)\b` at this position: the optional
`next\s+` prefix is tried first (greedy `?`), falling back to a bare weekday
name.  Returns `(group(1), "next" in group(0))`. -/
def tryWeekdayTokenAt (s : List Char) : Option (String × Bool) :=
  let noNext := (tryWeekdayNameAt weekdayNames s).map fun w => (w, false)
  match stripKw ['n', 'e', 'x', 't'] s with
  | none => noNext
  | some r1 =>
    match wsDrop1Plus r1 with
    | none => noNext
    | some r2 =>
      match tryWeekdayNameAt weekdayNames r2 with
      | some w => some (w, true)
      | none => noNext

/-- `WEEKDAY_PATTERN.search(message)`. -/
def weekdaySearch (msg : String) : Option (String × Bool) := reSearch tryWeekdayTokenAt msg

/-- Python `str.capitalize()`. -/
def pyCapitalize (s : String) : String :=
  match s.toList with
  | [] => ""
  | c :: cs => String.mk (c.toUpper :: cs.map Char.toLower)

/-- `list.index` (every use below is on a member). -/
def idxOf (l : List String) (w : String) : Nat := l.findIdx (· == w)

/-- The weekday-resolution arithmetic of
`TemporalParser._try_weekday_pattern`, applied to a successful
`WEEKDAY_PATTERN` match `(weekday_name, has_next_prefix)`. -/
def weekdayRange (ref : Int) (m : String × Bool) : TimeRange :=
  let targetWeekday : Int := idxOf weekdayNames m.1
  let currentWeekday := ref.weekday
  let daysUntil : Int :=
    if m.2 then
      let du := (targetWeekday - currentWeekday + 7) % 7
      if du = 0 then 7 else du
    else
      let du := (targetWeekday - currentWeekday) % 7
      if du = 0 ∧ targetWeekday < currentWeekday then 7 else du
  let targetDate := ref + daysUntil
  ⟨targetDate, targetDate, pyCapitalize m.1, .specificWeekday⟩

/-- `TemporalParser._try_weekday_pattern`. -/
def tryWeekdayPattern (message : String) (ref : Int) : Option TimeRange :=
  (weekdaySearch message).map (weekdayRange ref)

/-- `TemporalParser._try_regex_patterns`: the ordered regex rules
(`next N days` capped at 30, then tomorrow / yesterday / next week /
this week / today). -/
def tryRegexPatterns (message : String) (ref : Int) : Option TimeRange :=
  match nextNDaysSearch message with
  | some n0 =>
    let n := min n0 30
    some ⟨ref, ref + (n : Int) - 1, "next " ++ toString n ++ " days", .nextNDays⟩
  | none =>
    if kwSearch ["tomorrow"] message then some ⟨ref + 1, ref + 1, "tomorrow", .tomorrow⟩
    else if kwSearch ["yesterday"] message then some ⟨ref - 1, ref - 1, "yesterday", .yesterday⟩
    else if twoWordSearch "next" "week" message then
      let nextMonday := ref + (7 - ref.weekday)
      some ⟨nextMonday, nextMonday + 6, "next week", .nextWeek⟩
    else if twoWordSearch "this" "week" message then
      let monday := ref - ref.weekday
      some ⟨monday, monday + 6, "this week", .thisWeek⟩
    else if kwSearch ["today"] message then some ⟨ref, ref, "today", .today⟩
    else none

/-- `TemporalParser.parse(message, reference_date)`: regex rules first, then
the weekday pattern. -/
def TemporalParser.parse (message : String) (ref : Int) : Option TimeRange :=
  match tryRegexPatterns message ref with
  | some r => some r
  | none => tryWeekdayPattern message ref

/-- Monday of the week containing `d` (the `this week` computation); two dates
are in the same calendar week iff they share this value. -/
def mondayOf (d : Int) : Int := d - d.weekday

example :
    TemporalParser.parse "Any meetings Friday?" (fromYmd 2024 12 11)
      = some ⟨fromYmd 2024 12 13, fromYmd 2024 12 13, "Friday", .specificWeekday⟩ := by
  decide

example :
    TemporalParser.parse "Events next Monday?" (fromYmd 2024 12 11)
      = some ⟨fromYmd 2024 12 16, fromYmd 2024 12 16, "Monday", .specificWeekday⟩ := by
  decide

example :
    TemporalParser.parse "What's happening the next 3 days?" (fromYmd 2024 12 11)
      = some ⟨fromYmd 2024 12 11, fromYmd 2024 12 13, "next 3 days", .nextNDays⟩ := by
  decide

example :
    TemporalParser.parse "Events for the next 100 days" 1000
      = some ⟨1000, 1029, "next 30 days", .nextNDays⟩ := by
  decide

example :
    TemporalParser.parse "Events next week?" (fromYmd 2024 12 11)
      = some ⟨fromYmd 2024 12 16, fromYmd 2024 12 22, "next week", .nextWeek⟩ := by
  decide

example : TemporalParser.parse "Hello, how are you?" 1000 = none := by decide

example :
    TemporalParser.parse "TOMORROW" 1000 = some ⟨1001, 1001, "tomorrow", .tomorrow⟩ := by
  decide

/-! ## Claims C3 and C4: weekday resolution and the `start ≤ end` invariant -/

/-- C3 fails as stated: with reference date Wednesday 2024-12-11, parsing
"next Friday" yields Friday 2024-12-13 — the upcoming Friday of the *same*
week (Friday had not yet occurred), not a date in the following week. -/
theorem weekday_next_counterexample :
    TemporalParser.parse "next Friday" (fromYmd 2024 12 11)
      = some ⟨fromYmd 2024 12 13, fromYmd 2024 12 13, "Friday",
          TemporalPattern.specificWeekday⟩ ∧
    mondayOf (fromYmd 2024 12 13) = mondayOf (fromYmd 2024 12 11) ∧
    mondayOf (fromYmd 2024 12 13) ≠ mondayOf (fromYmd 2024 12 11) + 7 := by
  decide

/-- C3 (amended): when no earlier-priority pattern matches, a weekday mention
resolves through `weekdayRange`; writing `t` for the target weekday index,
with the "next" prefix the result is the single day of the next occurrence of
that weekday *strictly after* the reference date (within 7 days), which lies
in the week following the reference date's week *iff* `t ≤ ref.weekday`
(i.e. iff that weekday already occurred this week or is today); without the
prefix it is the nearest occurrence on or after the reference date. -/
theorem weekday_resolution_amended :
    (∀ (msg : String) (ref : Int), tryRegexPatterns msg ref = none →
      TemporalParser.parse msg ref = (weekdaySearch msg).map (weekdayRange ref)) ∧
    (∀ (ref : Int) (w : String) (hasNext : Bool), w ∈ weekdayNames →
      (weekdayRange ref (w, hasNext)).start = (weekdayRange ref (w, hasNext)).«end» ∧
      (weekdayRange ref (w, hasNext)).pattern = TemporalPattern.specificWeekday ∧
      Int.weekday (weekdayRange ref (w, hasNext)).start = (idxOf weekdayNames w : Int) ∧
      (hasNext = true →
        ref < (weekdayRange ref (w, hasNext)).start ∧
        (weekdayRange ref (w, hasNext)).start ≤ ref + 7 ∧
        (mondayOf (weekdayRange ref (w, hasNext)).start = mondayOf ref + 7 ↔
          (idxOf weekdayNames w : Int) ≤ ref.weekday)) ∧
      (hasNext = false →
        ref ≤ (weekdayRange ref (w, hasNext)).start ∧
        (weekdayRange ref (w, hasNext)).start < ref + 7)) := by
  constructor
  · intro msg ref h
    simp [TemporalParser.parse, h, tryWeekdayPattern]
  · intro ref w hasNext hw
    have h0 : (0 : Int) ≤ (idxOf weekdayNames w : Int) := Int.natCast_nonneg _
    have h7' : (idxOf weekdayNames w : Int) < 7 := by
      have h7 : idxOf weekdayNames w < 7 := by fin_cases hw <;> decide
      exact_mod_cast h7
    cases hasNext with
    | true =>
      refine ⟨rfl, rfl, ?_, ?_, by simp⟩
      · simp only [weekdayRange, Int.weekday, mondayOf]
        norm_num
        split_ifs <;> omega
      · intro _
        simp only [weekdayRange, Int.weekday, mondayOf]
        norm_num
        refine ⟨?_, ?_, ?_⟩ <;> (split_ifs <;> omega)
    | false =>
      refine ⟨rfl, rfl, ?_, by simp, ?_⟩
      · simp only [weekdayRange, Int.weekday, mondayOf]
        norm_num
        split_ifs <;> omega
      · intro _
        simp only [weekdayRange, Int.weekday, mondayOf]
        norm_num
        refine ⟨?_, ?_⟩ <;> (split_ifs <;> omega)

/-- Concrete instance of the amended C3: "next Friday" from Wednesday
2024-12-11, and the weekday-arithmetic conclusions at that input. -/
theorem weekday_resolution_amended_witness :
    (TemporalParser.parse "next Friday" (fromYmd 2024 12 11)
      = (weekdaySearch "next Friday").map (weekdayRange (fromYmd 2024 12 11))) ∧
    ("friday" ∈ weekdayNames ∧
      ((weekdayRange (fromYmd 2024 12 11) ("friday", true)).start
          = (weekdayRange (fromYmd 2024 12 11) ("friday", true)).«end» ∧
        (weekdayRange (fromYmd 2024 12 11) ("friday", true)).pattern
          = TemporalPattern.specificWeekday ∧
        Int.weekday (weekdayRange (fromYmd 2024 12 11) ("friday", true)).start
          = (idxOf weekdayNames "friday" : Int) ∧
        (true = true →
          fromYmd 2024 12 11 < (weekdayRange (fromYmd 2024 12 11) ("friday", true)).start ∧
          (weekdayRange (fromYmd 2024 12 11) ("friday", true)).start
            ≤ fromYmd 2024 12 11 + 7 ∧
          (mondayOf (weekdayRange (fromYmd 2024 12 11) ("friday", true)).start
              = mondayOf (fromYmd 2024 12 11) + 7 ↔
            (idxOf weekdayNames "friday" : Int) ≤ Int.weekday (fromYmd 2024 12 11))) ∧
        (true = false →
          fromYmd 2024 12 11 ≤ (weekdayRange (fromYmd 2024 12 11) ("friday", true)).start ∧
          (weekdayRange (fromYmd 2024 12 11) ("friday", true)).start
            < fromYmd 2024 12 11 + 7))) :=
  ⟨weekday_resolution_amended.1 "next Friday" (fromYmd 2024 12 11) (by decide),
    by decide,
    weekday_resolution_amended.2 (fromYmd 2024 12 11) "friday" true (by decide)⟩

/-- C4 fails as stated: the message "next 0 days" matches the `next N days`
rule with `N = 0` (the cap is `min`, not a lower bound), producing the
TimeRange `[ref, ref - 1]` with `start > end`. -/
theorem timerange_invariant_counterexample :
    TemporalParser.parse "next 0 days" (fromYmd 2024 12 11)
      = some ⟨fromYmd 2024 12 11, fromYmd 2024 12 11 - 1, "next 0 days",
          TemporalPattern.nextNDays⟩ ∧
    ¬(fromYmd 2024 12 11 ≤ fromYmd 2024 12 11 - 1) := by
  decide

/-- C4 (amended): every `TimeRange` produced by `TemporalParser.parse`
satisfies `start ≤ end` **unless** the message's `next N days` match captured
`N = 0`, in which case `end = start - 1`; the named factories satisfy
`start ≤ end` unconditionally, except `next_n_days n` which satisfies it iff
`n ≥ 1`. -/
theorem timerange_start_le_end_amended :
    (∀ (msg : String) (ref : Int) (tr : TimeRange),
      TemporalParser.parse msg ref = some tr →
      (tr.start ≤ tr.«end» ↔ nextNDaysSearch msg ≠ some 0)) ∧
    (∀ d : Int,
      (TimeRange.today d).start ≤ (TimeRange.today d).«end» ∧
      (TimeRange.tomorrow d).start ≤ (TimeRange.tomorrow d).«end» ∧
      (TimeRange.thisWeek d).start ≤ (TimeRange.thisWeek d).«end» ∧
      (TimeRange.nextWeek d).start ≤ (TimeRange.nextWeek d).«end» ∧
      ∀ n : Nat,
        ((TimeRange.nextNDays d n).start ≤ (TimeRange.nextNDays d n).«end» ↔ 1 ≤ n)) := by
  constructor
  · intro msg ref tr h
    unfold TemporalParser.parse at h
    cases hr : tryRegexPatterns msg ref with
    | some r =>
      rw [hr] at h
      injection h with h'
      subst h'
      unfold tryRegexPatterns at hr
      cases hn : nextNDaysSearch msg with
      | some n0 =>
        rw [hn] at hr
        injection hr with hr'
        subst hr'
        simp only [ne_eq, Option.some.injEq, hn]
        omega
      | none =>
        rw [hn] at hr
        simp only [hn, ne_eq, reduceCtorEq, not_false_eq_true, iff_true]
        split_ifs at hr <;>
          (injection hr with hr' ; subst hr') <;> dsimp <;> omega
    | none =>
      rw [hr] at h
      have hrhs : nextNDaysSearch msg ≠ some 0 := by
        intro hn
        unfold tryRegexPatterns at hr
        rw [hn] at hr
        exact Option.noConfusion hr
      unfold tryWeekdayPattern at h
      cases hw : weekdaySearch msg with
      | none =>
        rw [hw] at h
        exact Option.noConfusion h
      | some m =>
        rw [hw] at h
        injection h with h'
        subst h'
        simp only [hrhs, ne_eq, not_false_eq_true, iff_true]
        exact le_of_eq (by simp [weekdayRange])
  · intro d
    refine ⟨le_refl _, le_refl _, ?_, ?_, ?_⟩
    · simp only [TimeRange.thisWeek]
      omega
    · simp only [TimeRange.nextWeek]
      omega
    · intro n
      simp only [TimeRange.nextNDays]
      omega

/-- Concrete instance of the amended C4: "next 2 days" from ordinal 1000
yields `[1000, 1001]`, and `start ≤ end` holds iff the captured `N` is not
zero. -/
theorem timerange_start_le_end_amended_witness :
    (TemporalParser.parse "next 2 days" 1000
      = some ⟨1000, 1001, "next 2 days", TemporalPattern.nextNDays⟩) ∧
    ((TimeRange.mk 1000 1001 "next 2 days" TemporalPattern.nextNDays).start
        ≤ (TimeRange.mk 1000 1001 "next 2 days" TemporalPattern.nextNDays).«end» ↔
      nextNDaysSearch "next 2 days" ≠ some 0) :=
  ⟨by decide,
    timerange_start_le_end_amended.1 "next 2 days" 1000
      ⟨1000, 1001, "next 2 days", TemporalPattern.nextNDays⟩ (by decide)⟩

/-! ## intent.py: hybrid intent detection

Python floats carry exact decimal constants here (0.3, 0.7, 0.8, 0.9, and
LLM probabilities); the only operations performed on them are `max` and
order comparisons, which IEEE doubles decide exactly for these values, so
confidences are modelled as rationals (`mkRat`). -/

/-- The `Intent` enumeration, in definition order. -/
inductive Intent where
  | weather
  | events
  | todos
  | refresh
  | general
deriving Repr, DecidableEq

/-- Iteration order of `for intent in Intent`. -/
def Intent.all : List Intent := [.weather, .events, .todos, .refresh, .general]

/-- `Intent.value`: the string payload of each enum member. -/
def Intent.value : Intent → String
  | .weather => "weather"
  | .events => "events"
  | .todos => "todos"
  | .refresh => "refresh"
  | .general => "general"

/-- `INTENT_PATTERNS`: keyword alternations per intent, in dict order. -/
def INTENT_PATTERNS : List (Intent × List String) :=
  [(.weather, ["weather", "temperature", "rain", "forecast", "cold", "hot", "sunny",
      "cloudy", "umbrella", "degrees", "jacket"]),
   (.events, ["calendar", "meeting", "event", "schedule", "appointment", "busy",
      "free", "available"]),
   (.todos, ["todo", "task", "reminder", "to-do", "tasks", "checklist"]),
   (.refresh, ["refresh", "update", "latest", "check again", "refetch", "reload"])]

/-- `CONFIDENCE_THRESHOLD = 0.3`. -/
def CONFIDENCE_THRESHOLD : Rat := mkRat 3 10

/-- `REGEX_HIGH_CONFIDENCE = 0.8`. -/
def REGEX_HIGH_CONFIDENCE : Rat := mkRat 8 10

/-- `IntentDetector._regex_match`: count keyword matches per intent;
1 match → 0.7, 2+ matches → 0.9, no matches → no entry. -/
def regexMatch (message : String) : List (Intent × Rat) :=
  INTENT_PATTERNS.filterMap fun p =>
    let n := countKwMatches p.2 message
    if n == 0 then none
    else some (p.1, if n == 1 then mkRat 7 10 else mkRat 9 10)

/-- `IntentDetector._should_use_llm`. -/
def shouldUseLlm (regexResults : List (Intent × Rat)) (message : String) : Bool :=
  if regexResults.isEmpty then true
  else
    let highConfidence := regexResults.any fun p => decide (REGEX_HIGH_CONFIDENCE ≤ p.2)
    if highConfidence then false
    else if 1 < regexResults.length then true
    else message.toList.contains '?' && !highConfidence

/-- `IntentDetector._combine_results`: per non-GENERAL intent, the maximum of
the two confidences (missing entries read as 0.0). -/
def combineResults (regexResults otherResults : List (Intent × Rat)) :
    List (Intent × Rat) :=
  Intent.all.filterMap fun intent =>
    if intent = .general then none
    else
      some (intent, max ((alookup regexResults intent).getD 0)
        ((alookup otherResults intent).getD 0))

/-- The Python exception classes relevant to `_llm_classify`: the three
caught by its `except` clause, and `other` standing for any other exception
type (e.g. a network error raised by `generate_content`). -/
inductive PyExc where
  | jsonDecodeError
  | keyError
  | attributeError
  | other
deriving Repr, DecidableEq

/-- Exception classes named in `_llm_classify`'s `except` clause:
`(json.JSONDecodeError, KeyError, AttributeError)`. -/
def caughtByLlmClassify : PyExc → Bool
  | .jsonDecodeError => true
  | .keyError => true
  | .attributeError => true
  | .other => false

deriving instance DecidableEq for Except

/-- `IntentDetector._llm_classify`.  Its `try` block — the
`generate_content` call, fence stripping and `json.loads` — is modelled by
its outcome `call`: either a raised exception or the decoded JSON object (a
string-keyed probability table).  On success, each non-GENERAL intent reads
`probabilities.get(intent.value, 0.0)` and keeps values within `[0, 1]`; an
exception is caught only if its class is listed in the `except` clause,
otherwise it propagates (`Except.error`). -/
def llmClassify (call : Except PyExc (List (String × Rat))) :
    Except PyExc (List (Intent × Rat)) :=
  match call with
  | .ok probabilities =>
    .ok <| Intent.all.filterMap fun intent =>
      if intent = .general then none
      else
        let prob := (alookup probabilities intent.value).getD 0
        if 0 ≤ prob ∧ prob ≤ 1 then some (intent, prob) else none
  | .error e => if caughtByLlmClassify e then .ok [] else .error e

/-- The environment of one `IntentDetector.detect` call: the `IntentCache`
lookup outcome for the message (exact or fuzzy hit, else `none`), and the
LLM-call outcome used by `_llm_classify` on a cache miss.  (The cache-store
side effect of a successful LLM classification only matters for later calls
and is not modelled.) -/
structure DetectEnv where
  cached : Option (List (Intent × Rat))
  llm : Except PyExc (List (String × Rat))

/-- The 0.3 inclusion filter `{intent for intent, conf in results.items() if
conf >= CONFIDENCE_THRESHOLD}` (dict keys are unique, so the set is the list
of surviving keys). -/
def thresholdFilter (results : List (Intent × Rat)) : List Intent :=
  (results.filter fun p => decide (CONFIDENCE_THRESHOLD ≤ p.2)).map Prod.fst

/-- `intents if intents else {Intent.GENERAL}`. -/
def fallbackGeneral (intents : List Intent) : List Intent :=
  if intents.isEmpty then [Intent.general] else intents

/-- `IntentDetector.detect`: regex fast path, then cache, then LLM;
an uncaught exception from `_llm_classify` propagates. -/
def IntentDetector.detect (message : String) (env : DetectEnv) :
    Except PyExc (List Intent) :=
  let regexResults := regexMatch message
  if !shouldUseLlm regexResults message then
    .ok (fallbackGeneral (thresholdFilter regexResults))
  else
    match env.cached with
    | some cachedResults =>
      .ok (fallbackGeneral (thresholdFilter (combineResults regexResults cachedResults)))
    | none =>
      match llmClassify env.llm with
      | .error e => .error e
      | .ok llmResults =>
        .ok (fallbackGeneral (thresholdFilter (combineResults regexResults llmResults)))

example : regexMatch "weather" = [(Intent.weather, mkRat 7 10)] := by decide
example : regexMatch "weather forecast" = [(Intent.weather, mkRat 9 10)] := by decide
example :
    IntentDetector.detect "weather" ⟨none, .ok []⟩ = .ok [Intent.weather] := by decide
example :
    IntentDetector.detect "Hello" ⟨none, .ok []⟩ = .ok [Intent.general] := by decide

/-! ## Claims C5, C6 and C8: intent detection -/

/-- An association list built by `filterMap` whose results never carry the
GENERAL key has no GENERAL binding. -/
theorem alookup_filterMap_general {γ : Type} (l : List γ) (f : γ → Option (Intent × Rat))
    (hf : ∀ a ∈ l, ∀ p, f a = some p → p.1 ≠ Intent.general) :
    alookup (l.filterMap f) Intent.general = none := by
  rw [alookup, Option.map_eq_none']
  rw [List.find?_eq_none]
  intro p hp
  rw [List.mem_filterMap] at hp
  obtain ⟨a, ha, hfa⟩ := hp
  have := hf a ha p hfa
  simpa [beq_iff_eq] using this

/-- `_regex_match` never scores GENERAL. -/
theorem alookup_regexMatch_general (msg : String) :
    alookup (regexMatch msg) Intent.general = none := by
  apply alookup_filterMap_general
  intro a ha p hfa
  dsimp only at hfa
  split at hfa
  · exact Option.noConfusion hfa
  · injection hfa with h
    subst h
    fin_cases ha <;> simp

/-- `_combine_results` never scores GENERAL. -/
theorem alookup_combineResults_general (a b : List (Intent × Rat)) :
    alookup (combineResults a b) Intent.general = none := by
  apply alookup_filterMap_general
  intro i _ p hfa
  split at hfa
  · exact Option.noConfusion hfa
  · injection hfa with h
    subst h
    assumption

/-- A successful `_llm_classify` never scores GENERAL. -/
theorem alookup_llmClassify_general (call : Except PyExc (List (String × Rat)))
    (r : List (Intent × Rat)) (h : llmClassify call = .ok r) :
    alookup r Intent.general = none := by
  cases call with
  | ok probabilities =>
    simp only [llmClassify] at h
    injection h with h
    subst h
    apply alookup_filterMap_general
    intro i _ p hfa
    split at hfa
    · exact Option.noConfusion hfa
    · split at hfa
      · injection hfa with h2
        subst h2
        assumption
      · exact Option.noConfusion hfa
  | error e =>
    simp only [llmClassify] at h
    split at h
    · injection h with h
      subst h
      simp [alookup]
    · exact Except.noConfusion h

/-- GENERAL survives no threshold filter over a GENERAL-free table. -/
theorem general_not_mem_thresholdFilter (X : List (Intent × Rat))
    (hX : alookup X Intent.general = none) :
    Intent.general ∉ thresholdFilter X := by
  intro hmem
  rw [alookup, Option.map_eq_none', List.find?_eq_none] at hX
  rw [thresholdFilter, List.mem_map] at hmem
  obtain ⟨p, hp, hfst⟩ := hmem
  rw [List.mem_filter] at hp
  exact absurd (by simp [hfst] : (p.1 == Intent.general) = true) (hX p hp.1)

/-- `intents if intents else {GENERAL}` over a GENERAL-free candidate list is
non-empty, and contains GENERAL only as the fallback singleton. -/
theorem fallbackGeneral_spec (X : List (Intent × Rat))
    (hX : alookup X Intent.general = none) :
    fallbackGeneral (thresholdFilter X) ≠ [] ∧
    (Intent.general ∈ fallbackGeneral (thresholdFilter X) →
      fallbackGeneral (thresholdFilter X) = [Intent.general]) := by
  unfold fallbackGeneral
  by_cases h : (thresholdFilter X).isEmpty
  · simp [h]
  · simp only [h, Bool.false_eq_true, if_false]
    constructor
    · intro hnil
      rw [hnil] at h
      exact h rfl
    · intro hg
      exact absurd hg (general_not_mem_thresholdFilter X hX)

/-- C8: `detect` always returns a non-empty intent set; GENERAL is never
scored by the regex, LLM, or combination tables, and appears in a returned
set only as the fallback singleton `[GENERAL]`. -/
theorem detect_general_fallback :
    (∀ (msg : String) (env : DetectEnv) (s : List Intent),
      IntentDetector.detect msg env = .ok s →
      s ≠ [] ∧ (Intent.general ∈ s → s = [Intent.general])) ∧
    (∀ msg : String, alookup (regexMatch msg) Intent.general = none) ∧
    (∀ (call : Except PyExc (List (String × Rat))) (r : List (Intent × Rat)),
      llmClassify call = .ok r → alookup r Intent.general = none) ∧
    (∀ a b : List (Intent × Rat), alookup (combineResults a b) Intent.general = none) := by
  refine ⟨?_, alookup_regexMatch_general, alookup_llmClassify_general,
    alookup_combineResults_general⟩
  intro msg env s h
  unfold IntentDetector.detect at h
  by_cases hs : shouldUseLlm (regexMatch msg) msg
  · simp only [hs, Bool.not_true, Bool.false_eq_true, if_false] at h
    match hc : env.cached with
    | some cachedResults =>
      rw [hc] at h
      injection h with h
      subst h
      exact fallbackGeneral_spec _ (alookup_combineResults_general _ _)
    | none =>
      rw [hc] at h
      match hl : llmClassify env.llm with
      | .error e =>
        rw [hl] at h
        exact Except.noConfusion h
      | .ok llmResults =>
        rw [hl] at h
        injection h with h
        subst h
        exact fallbackGeneral_spec _ (alookup_combineResults_general _ _)
  · simp only [hs, Bool.not_false, if_true] at h
    injection h with h
    subst h
    exact fallbackGeneral_spec _ (alookup_regexMatch_general _)

/-- Concrete instance of C8: `detect "weather"` returns the non-empty set
`[WEATHER]`, which may contain GENERAL only as the fallback singleton. -/
theorem detect_general_fallback_witness :
    (IntentDetector.detect "weather" ⟨none, .ok []⟩ = .ok [Intent.weather]) ∧
    ([Intent.weather] ≠ [] ∧
      (Intent.general ∈ [Intent.weather] → [Intent.weather] = [Intent.general])) :=
  ⟨by decide,
    detect_general_fallback.1 "weather" ⟨none, .ok []⟩ [Intent.weather] (by decide)⟩

/-- C6: the combined table binds every non-GENERAL intent to the maximum of
its regex and cache-or-LLM confidences (absent entries reading 0.0), and
binds GENERAL to nothing. -/
theorem intent_max_fusion (regexResults otherResults : List (Intent × Rat))
    (intent : Intent) (h : intent ≠ Intent.general) :
    alookup (combineResults regexResults otherResults) intent
      = some (max ((alookup regexResults intent).getD 0)
          ((alookup otherResults intent).getD 0)) ∧
    alookup (combineResults regexResults otherResults) Intent.general = none := by
  refine ⟨?_, alookup_combineResults_general _ _⟩
  cases intent
  case general => exact absurd rfl h
  all_goals rfl

/-- Concrete instance of C6 (the spec's example): regex 0.9 and LLM 0.2 for
WEATHER combine to 0.9, not a blend. -/
theorem intent_max_fusion_witness :
    (alookup (combineResults [(Intent.weather, mkRat 9 10)] [(Intent.weather, mkRat 2 10)])
        Intent.weather
      = some (max ((alookup [(Intent.weather, mkRat 9 10)] Intent.weather).getD 0)
          ((alookup [(Intent.weather, mkRat 2 10)] Intent.weather).getD 0)) ∧
      alookup (combineResults [(Intent.weather, mkRat 9 10)] [(Intent.weather, mkRat 2 10)])
        Intent.general = none) ∧
    alookup (combineResults [(Intent.weather, mkRat 9 10)] [(Intent.weather, mkRat 2 10)])
      Intent.weather = some (mkRat 9 10) :=
  ⟨intent_max_fusion [(Intent.weather, mkRat 9 10)] [(Intent.weather, mkRat 2 10)]
      Intent.weather (by decide),
    by decide⟩

/-- C5 fails as stated: an exception class not listed in `_llm_classify`'s
`except` clause (e.g. a network error from `generate_content`) is not caught
and aborts `detect`: on the message "Hello" (no regex signal, cache miss),
`detect` propagates the exception instead of returning an intent set. -/
theorem llm_exception_counterexample :
    IntentDetector.detect "Hello" ⟨none, .error PyExc.other⟩ = .error PyExc.other ∧
    llmClassify (.error PyExc.other) = .error PyExc.other := by
  decide

/-- C5 (amended): exactly the exception classes `json.JSONDecodeError`,
`KeyError` and `AttributeError` are caught by `_llm_classify` and yield the
empty mapping; for those classes `detect` still returns an intent set, while
any other exception class propagates unchanged. -/
theorem llm_classify_exception_behavior :
    (∀ e : PyExc, llmClassify (.error e)
        = if caughtByLlmClassify e then .ok [] else .error e) ∧
    (∀ (msg : String) (cached : Option (List (Intent × Rat))) (e : PyExc),
      caughtByLlmClassify e = true →
      ∃ intents, IntentDetector.detect msg ⟨cached, .error e⟩ = .ok intents) := by
  constructor
  · intro e
    cases e <;> rfl
  · intro msg cached e he
    unfold IntentDetector.detect
    by_cases hs : shouldUseLlm (regexMatch msg) msg
    · simp only [hs, Bool.not_true, Bool.false_eq_true, if_false]
      match cached with
      | some cachedResults => exact ⟨_, rfl⟩
      | none =>
        simp only [llmClassify, he, if_true]
        exact ⟨_, rfl⟩
    · simp only [hs, Bool.not_false, if_true]
      exact ⟨_, rfl⟩

/-- Concrete instance of the amended C5: a `JSONDecodeError` outcome is
caught, and `detect "Hello"` still returns an intent set. -/
theorem llm_classify_exception_behavior_witness :
    (caughtByLlmClassify PyExc.jsonDecodeError = true) ∧
    (∃ intents,
      IntentDetector.detect "Hello" ⟨none, .error PyExc.jsonDecodeError⟩ = .ok intents) :=
  ⟨by decide,
    llm_classify_exception_behavior.2 "Hello" none PyExc.jsonDecodeError (by decide)⟩

/-! ## semantic_transcoder.py

The transcoder is pure; `date.today()` is passed explicitly as `today`.
Weather temperatures are modelled at integer precision (no claim exercises
float rendering); date strings are assumed well-formed (`strptime` failure on
malformed dates is out of scope, such strings read as numeral 0). -/

/-- `TranscoderConfig`. -/
structure TranscoderConfig where
  useEmoji : Bool := true
  includeRelativeDates : Bool := true
  timeFormat24h : Bool := false
deriving Repr, DecidableEq

/-- The `due` sub-dictionary of a Todoist task. -/
structure TodoDue where
  date : Option String := none
deriving Repr, DecidableEq

/-- A todo dictionary, restricted to the keys the transcoder reads. -/
structure Todo where
  content : Option String := none
  priority : Option Int := none
  due : Option TodoDue := none
deriving Repr, DecidableEq

/-- `weather_data["current"]`. -/
structure WeatherCurrent where
  temperature2m : Option Int := none
  precipitation : Int := 0
deriving Repr, DecidableEq

/-- `weather_data["current_units"]`. -/
structure WeatherUnits where
  temperature2m : Option String := none
deriving Repr, DecidableEq

/-- `weather_data["daily"]`. -/
structure WeatherDaily where
  time : List String := []
  temperature2mMax : List Int := []
  temperature2mMin : List Int := []
  sunrise : List String := []
  sunset : List String := []
deriving Repr, DecidableEq

/-- A weather payload; an entirely absent payload (`{}`, falsy) is all-`none`. -/
structure WeatherData where
  current : Option WeatherCurrent := none
  currentUnits : Option WeatherUnits := none
  daily : Option WeatherDaily := none
deriving Repr, DecidableEq

/-- `not weather_data` (dict falsiness). -/
def WeatherData.isEmpty (w : WeatherData) : Bool :=
  w.current.isNone && w.currentUnits.isNone && w.daily.isNone

/-- Split a character list on a separator (`str.split`). -/
def splitOnChar (sep : Char) : List Char → List (List Char)
  | [] => [[]]
  | c :: cs =>
    let r := splitOnChar sep cs
    if c == sep then [] :: r
    else
      match r with
      | [] => [[c]]
      | h :: t => (c :: h) :: t

/-- `datetime.strptime(s.split("T")[0], "%Y-%m-%d")`: the `(year, month,
day)` numerals of an ISO date string. -/
def dateStrYmd (s : String) : Nat × Nat × Nat :=
  let core := s.toList.takeWhile fun c => c ≠ 'T'
  let parts := splitOnChar '-' core
  (digitsToNat (parts.getD 0 []), digitsToNat (parts.getD 1 []), digitsToNat (parts.getD 2 []))

/-- The ordinal of an ISO date string. -/
def dateStrOrdinal (s : String) : Int :=
  let ymd := dateStrYmd s
  fromYmd ymd.1 ymd.2.1 ymd.2.2

/-- `strftime("%A")` names. -/
def weekdayLongNames : List String :=
  ["Monday", "Tuesday", "Wednesday", "Thursday", "Friday", "Saturday", "Sunday"]

/-- `strftime("%B")` names. -/
def monthLongNames : List String :=
  ["January", "February", "March", "April", "May", "June", "July", "August",
   "September", "October", "November", "December"]

/-- `strftime("%b")` names. -/
def monthShortNames : List String :=
  ["Jan", "Feb", "Mar", "Apr", "May", "Jun", "Jul", "Aug", "Sep", "Oct", "Nov", "Dec"]

/-- `SemanticTranscoder._get_day_suffix`. -/
def getDaySuffix (day : Nat) : String :=
  if 11 ≤ day ∧ day ≤ 13 then "th"
  else
    match day % 10 with
    | 1 => "st"
    | 2 => "nd"
    | 3 => "rd"
    | _ => "th"

/-- `format_date_full`: "Wednesday, December 11th, 2024". -/
def formatDateFull (s : String) : String :=
  let ymd := dateStrYmd s
  let o := fromYmd ymd.1 ymd.2.1 ymd.2.2
  weekdayLongNames.getD o.weekday.toNat "" ++ ", " ++ monthLongNames.getD (ymd.2.1 - 1) ""
    ++ " " ++ toString ymd.2.2 ++ getDaySuffix ymd.2.2 ++ ", " ++ toString ymd.1

/-- `format_date_short`: "Dec 11". -/
def formatDateShort (s : String) : String :=
  let ymd := dateStrYmd s
  monthShortNames.getD (ymd.2.1 - 1) "" ++ " " ++ toString ymd.2.2

/-- `format_time`: a date-only value renders as "All day", otherwise the
HH:MM part renders in 24-hour or 12-hour-with-AM/PM form (no leading zero on
the 12-hour value). -/
def formatTime (cfg : TranscoderConfig) (s : String) : String :=
  if !(s.toList.contains 'T') then "All day"
  else
    let timePart := (s.toList.dropWhile fun c => c ≠ 'T').drop 1
    let comps := splitOnChar ':' timePart
    let hh := digitsToNat ((comps.getD 0 []).takeWhile Char.isDigit)
    let mm := digitsToNat ((comps.getD 1 []).takeWhile Char.isDigit)
    if cfg.timeFormat24h then pad2 hh ++ ":" ++ pad2 mm
    else
      let h12 := if hh % 12 == 0 then 12 else hh % 12
      let ampm := if hh < 12 then "AM" else "PM"
      toString h12 ++ ":" ++ pad2 mm ++ " " ++ ampm

/-- `get_relative_date_label` (its guarded branches net to exactly this):
"TODAY" for today's date, "TOMORROW" for the next day, else nothing. -/
def getRelativeDateLabel (today : Int) (s : String) : Option String :=
  let d := dateStrOrdinal s
  if d = today then some "TODAY"
  else if d = today + 1 then some "TOMORROW"
  else none

/-- Join lines with newlines (`"\n".join`). -/
def joinLines (lines : List String) : String :=
  match lines with
  | [] => ""
  | l :: rest => rest.foldl (fun acc x => acc ++ "\n" ++ x) l

/-- Python `str.strip()`. -/
def pyStrip (s : String) : String :=
  String.mk (((s.toList.dropWhile Char.isWhitespace).reverse.dropWhile
    Char.isWhitespace).reverse)

/-- `needle` is a literal prefix of `hay`. -/
def leadsWith : List Char → List Char → Bool
  | [], _ => true
  | _ :: _, [] => false
  | n :: ns, h :: hs => n == h && leadsWith ns hs

/-- Python `needle in hay` (substring containment). -/
def containsChars (needle : List Char) : List Char → Bool
  | [] => needle.isEmpty
  | c :: cs => leadsWith needle (c :: cs) || containsChars needle cs

/-- `transcode_weather`. -/
def transcodeWeather (cfg : TranscoderConfig) (today : Int) (w : WeatherData) : String :=
  if w.isEmpty then "Weather data unavailable."
  else
    let currentLines : List String :=
      match w.current with
      | some current =>
        let tempUnit := (match w.currentUnits with
          | some u => u.temperature2m
          | none => none).getD "°F"
        ["CURRENT WEATHER:"]
          ++ (match current.temperature2m with
              | some t => ["  Temperature: " ++ toString t ++ tempUnit]
              | none => [])
          ++ [if 0 < current.precipitation then
                "  Precipitation: " ++ toString current.precipitation ++ "mm"
              else "  Precipitation: None"]
          ++ [""]
      | none => []
    let dailyLines : List String :=
      match w.daily with
      | some daily =>
        if daily.time.isEmpty then []
        else
          ((daily.time.take 3).enum.map fun p =>
            let i := p.1
            let dateStr := p.2
            let relative := getRelativeDateLabel today dateStr
            let fullDate := formatDateFull dateStr
            (if relative.isSome && cfg.includeRelativeDates then
              [relative.getD "" ++ "\x27S FORECAST (" ++ fullDate ++ "):"]
            else ["FORECAST FOR " ++ fullDate ++ ":"])
            ++ (if i < daily.temperature2mMax.length ∧ i < daily.temperature2mMin.length then
                  ["  High: " ++ toString (daily.temperature2mMax.getD i 0) ++ "°F, Low: "
                    ++ toString (daily.temperature2mMin.getD i 0) ++ "°F"]
                else [])
            ++ (if i < daily.sunrise.length ∧ i < daily.sunset.length then
                  ["  Sunrise: " ++ formatTime cfg (daily.sunrise.getD i "")
                    ++ ", Sunset: " ++ formatTime cfg (daily.sunset.getD i "")]
                else [])
            ++ [""]).flatten
      | none => []
    pyStrip (joinLines (currentLines ++ dailyLines))

/-- Append `v` to the group of key `k`, preserving dict insertion order of
keys (`events_by_date[event_date].append(event)`). -/
def dictAppend {β : Type} (m : List (String × List β)) (k : String) (v : β) :
    List (String × List β) :=
  match m with
  | [] => [(k, [v])]
  | (k', vs) :: rest =>
    if k' == k then (k', vs ++ [v]) :: rest else (k', vs) :: dictAppend rest k v

/-- Insert into a string list sorted by `strLe` (`sorted(keys)`; keys are
unique, so any correct sort agrees). -/
def insertSorted (x : String) : List String → List String
  | [] => [x]
  | y :: ys => if strLe x y then x :: y :: ys else y :: insertSorted x ys

/-- `sorted(...)` on strings. -/
def sortStrs : List String → List String
  | [] => []
  | x :: xs => insertSorted x (sortStrs xs)

/-- Stable insertion into an event list sorted by the `start` key. -/
def insertEventSorted (x : Event) : List Event → List Event
  | [] => [x]
  | y :: ys =>
    if strLe (x.start.getD "") (y.start.getD "") then x :: y :: ys
    else y :: insertEventSorted x ys

/-- `sorted(date_events, key=lambda e: e.get("start", ""))` (stable). -/
def sortEventsByStart : List Event → List Event
  | [] => []
  | x :: xs => insertEventSorted x (sortEventsByStart xs)

/-- The grouping key of `transcode_events`:
`event.get("date") or event.get("start", "").split("T")[0]`. -/
def transcodeEventDate (event : Event) : String :=
  let d := event.date.getD ""
  if d ≠ "" then d
  else String.mk ((event.start.getD "").toList.takeWhile fun c => c ≠ 'T')

/-- Group events by date, dropping events with no usable date. -/
def eventsByDate (events : List Event) : List (String × List Event) :=
  events.foldl
    (fun m event =>
      let eventDate := transcodeEventDate event
      if eventDate ≠ "" then dictAppend m eventDate event else m)
    []

/-- `SemanticTranscoder._format_single_event`. -/
def formatSingleEvent (cfg : TranscoderConfig) (event : Event) : String :=
  let summary := event.summary.getD "Untitled Event"
  let start := event.start.getD ""
  let endVal := event.«end».getD ""
  let location := event.location.getD ""
  let calendar := event.calendar.getD ""
  let calendarType := event.calendarType.getD ""
  let isAllDay := !(start.toList.contains 'T')
  let mainLine :=
    if isAllDay then
      if calendarType == "birthdays"
          || containsChars "birthday".toList (summary.toList.map Char.toLower) then
        "  " ++ (if cfg.useEmoji then "🎂 " else "") ++ summary ++ " (all day)"
      else "  " ++ summary ++ " (all day)"
    else
      let startTime := formatTime cfg start
      if endVal ≠ "" && endVal.toList.contains 'T' then
        "  " ++ startTime ++ " - " ++ formatTime cfg endVal ++ ": " ++ summary
      else "  " ++ startTime ++ ": " ++ summary
  joinLines ([mainLine]
    ++ (if location ≠ "" then
          ["    " ++ (if cfg.useEmoji then "📍 " else "") ++ location]
        else [])
    ++ (if calendar ≠ "" then
          ["    " ++ (if cfg.useEmoji then "📅 " else "") ++ calendar ++ " calendar"]
        else []))

/-- `transcode_events`: group by date, sort dates and events, append per-date
counts and an optional total line; empty input yields the "No events
scheduled" sentinel. -/
def transcodeEvents (cfg : TranscoderConfig) (today : Int) (events : List Event)
    (timeRange : Option TimeRange) : String :=
  if events.isEmpty then
    "No events scheduled for "
      ++ (match timeRange with
          | some tr => tr.description
          | none => "the requested period") ++ "."
  else
    let byDate := eventsByDate events
    let sortedDates := sortStrs (byDate.map Prod.fst)
    let body := (sortedDates.map fun dateStr =>
      let dateEvents := (alookup byDate dateStr).getD []
      let relative := getRelativeDateLabel today dateStr
      let fullDate := formatDateFull dateStr
      let header :=
        if relative.isSome && cfg.includeRelativeDates then
          "EVENTS FOR " ++ relative.getD "" ++ " (" ++ fullDate ++ "):"
        else "EVENTS FOR " ++ fullDate ++ ":"
      [header, ""]
        ++ (sortEventsByStart dateEvents).map (formatSingleEvent cfg)
        ++ ["  (" ++ toString dateEvents.length ++ " event"
              ++ (if dateEvents.length != 1 then "s" else "") ++ ")", ""]).flatten
    let total := events.length
    let summaryLines :=
      match timeRange with
      | some tr =>
        ["Total: " ++ toString total ++ " event" ++ (if total != 1 then "s" else "")
          ++ " for " ++ tr.description]
      | none => []
    pyStrip (joinLines (body ++ summaryLines))

/-- The due date of a todo: `todo.get("due", {})` then `due.get("date") if
due else None`. -/
def todoDueDate (todo : Todo) : Option String :=
  match todo.due with
  | none => none
  | some due => due.date

/-- Group todos by due date (insertion order), collecting todos with a falsy
due date separately. -/
def todosByDate (todos : List Todo) : List (String × List Todo) × List Todo :=
  todos.foldl
    (fun acc todo =>
      match todoDueDate todo with
      | some s =>
        if s ≠ "" then (dictAppend acc.1 s todo, acc.2) else (acc.1, acc.2 ++ [todo])
      | none => (acc.1, acc.2 ++ [todo]))
    ([], [])

/-- `SemanticTranscoder._format_single_todo`: priority marker (4 → "[!]",
3 → "[-]", else "[ ]") plus a high/medium label. -/
def formatSingleTodo (todo : Todo) : String :=
  let content := todo.content.getD "Untitled task"
  let priority := todo.priority.getD 1
  let indicator := if priority == 4 then "[!]" else if priority == 3 then "[-]" else "[ ]"
  let line := "  " ++ indicator ++ " " ++ content
  if priority == 4 then line ++ " (high priority)"
  else if priority == 3 then line ++ " (medium priority)"
  else line

/-- `transcode_todos`. -/
def transcodeTodos (cfg : TranscoderConfig) (today : Int) (todos : List Todo) : String :=
  if todos.isEmpty then "No tasks scheduled."
  else
    let grouped := todosByDate todos
    let sortedDates := sortStrs (grouped.1.map Prod.fst)
    let body := (sortedDates.map fun dateStr =>
      let dateTodos := (alookup grouped.1 dateStr).getD []
      let relative := getRelativeDateLabel today dateStr
      let fullDate := formatDateFull dateStr
      let header :=
        if relative.isSome && cfg.includeRelativeDates then
          "TASKS FOR " ++ relative.getD "" ++ " (" ++ fullDate ++ "):"
        else "TASKS FOR " ++ fullDate ++ ":"
      [header] ++ dateTodos.map formatSingleTodo ++ [""]).flatten
    let noDateLines :=
      if grouped.2.isEmpty then []
      else "TASKS (no due date):" :: grouped.2.map formatSingleTodo ++ [""]
    let total := todos.length
    pyStrip (joinLines (body ++ noDateLines
      ++ ["Total: " ++ toString total ++ " task" ++ (if total != 1 then "s" else "")]))

/-- The `data` argument of `transcode_all`: a dict with optional `weather`,
`events` and `todos` keys. -/
structure AllData where
  weather : Option WeatherData := none
  events : Option (List Event) := none
  todos : Option (List Todo) := none
deriving Repr, DecidableEq

/-- `"\n\n---\n\n".join(sections)`. -/
def joinSections : List String → String
  | [] => ""
  | s :: rest => rest.foldl (fun acc x => acc ++ "\n\n---\n\n" ++ x) s

/-- `transcode_all`: concatenate whichever sections are present and truthy;
no sections yields "No data available.". -/
def transcodeAll (cfg : TranscoderConfig) (today : Int) (data : AllData)
    (timeRange : Option TimeRange) : String :=
  let sections : List String :=
    (match data.weather with
     | some w =>
       let t := transcodeWeather cfg today w
       if t = "" then [] else [t]
     | none => [])
    ++ (match data.events with
        | some evs =>
          let t := transcodeEvents cfg today evs timeRange
          if t = "" then [] else [t]
        | none => [])
    ++ (match data.todos with
        | some ts =>
          let t := transcodeTodos cfg today ts
          if t = "" then [] else [t]
        | none => [])
  if sections.isEmpty then "No data available."
  else joinSections sections

example :
    transcodeEvents {} 0
      [{ date := some "2024-12-11", summary := some "Standup",
         start := some "2024-12-11T09:30:00" }] none
      = "EVENTS FOR Wednesday, December 11th, 2024:\n\n  9:30 AM: Standup\n  (1 event)" := by
  decide

example :
    transcodeTodos {} 0
      [{ content := some "Buy milk", priority := some 4, due := some { date := some "2024-12-11" } },
       { content := some "Stretch" }]
      = "TASKS FOR Wednesday, December 11th, 2024:\n  [!] Buy milk (high priority)\n\nTASKS (no due date):\n  [ ] Stretch\n\nTotal: 2 tasks" := by
  decide

/-- C9: the empty-input sentinels.  `transcode_events([])` with no time range
returns exactly "No events scheduled for the requested period." (and for any
time range a string extending "No events scheduled"); `transcode_todos([])`
returns exactly "No tasks scheduled."; `transcode_all({})` returns exactly
"No data available.". -/
theorem transcoder_empty_sentinels :
    (∀ (cfg : TranscoderConfig) (today : Int),
      transcodeEvents cfg today [] none = "No events scheduled for the requested period.") ∧
    (∀ (cfg : TranscoderConfig) (today : Int) (timeRange : Option TimeRange),
      ∃ rest, transcodeEvents cfg today [] timeRange = "No events scheduled" ++ rest) ∧
    (∀ (cfg : TranscoderConfig) (today : Int),
      transcodeTodos cfg today [] = "No tasks scheduled.") ∧
    (∀ (cfg : TranscoderConfig) (today : Int) (timeRange : Option TimeRange),
      transcodeAll cfg today ⟨none, none, none⟩ timeRange = "No data available.") := by
  refine ⟨fun cfg today => rfl, fun cfg today timeRange => ?_, fun cfg today => rfl,
    fun cfg today timeRange => rfl⟩
  have key : ∀ x : String, "No events scheduled for " ++ x ++ "."
      = "No events scheduled" ++ (" for " ++ x ++ ".") := by
    intro x
    rw [show ("No events scheduled for " : String)
        = "No events scheduled" ++ " for " from rfl,
      String.append_assoc, String.append_assoc, String.append_assoc]
  cases timeRange with
  | none => exact ⟨_, key "the requested period"⟩
  | some tr => exact ⟨_, key tr.description⟩

/-- Fetcher for the C10 witness: one event dated 0001-01-01. -/
def c10wFetcher : String → String → FetchResult EvResponse :=
  fun _ _ => .ok ⟨some [{ date := some "0001-01-01" }]⟩

/-- Event for the C10 witness. -/
def c10wEvent : Event := { date := some "0001-01-01" }

/-- Concrete instance of C10: an in-window query (ordinals 1..2, today = 1)
served from the window cache, with the membership characterisation at a
concrete event. -/
theorem events_in_window_filter_witness :
    ((1 : Int) ≤ 1 ∧ (2 : Int) ≤ 1 + 6) ∧
    ((c10wEvent ∈ (Cache.getEventsCached ⟨[], []⟩ 1 2 c10wFetcher 1 0 false).events ↔
        c10wEvent ∈ (Cache.getOrRefreshEventsWindow ⟨[], []⟩ c10wFetcher 1 0 false).1 ∧
          pyEventDate c10wEvent ≠ "" ∧
          strLe (Int.toIso 1) (pyEventDate c10wEvent) = true ∧
          strLe (pyEventDate c10wEvent) (Int.toIso 2) = true) ∧
      (pyEventDate c10wEvent = "" →
        c10wEvent ∉ (Cache.getEventsCached ⟨[], []⟩ 1 2 c10wFetcher 1 0 false).events)) :=
  ⟨⟨by decide, by decide⟩,
    events_in_window_filter ⟨[], []⟩ 1 2 c10wFetcher 1 0 false ⟨by decide, by decide⟩
      c10wEvent⟩
